import Mathlib

/-!
Shallow embedding of the ProjectRFID attendance backend
(`backend/core/consumers.py`, `backend/core/tasks.py`, `backend/core/models.py`)
and proofs about its session state machine, timeout scheduler, device gateway
and dashboard fan-out.

Conventions of the embedding:
* A Django `DateTimeField` instant is a pair of a calendar day index and a
  time-of-day in minutes (`DateTime`); `TimeField` values are minutes of the
  day.  Python's `weekday()` is modelled as the day index modulo 7, and
  `datetime.combine(d, t)` as the pair `⟨d, t⟩`.
* ORM rows live in plain lists inside `Store`; `get` / `filter(...).first()`
  become `List.find?` over the same predicates the source filters use, and
  `objects.create` appends a row built exactly from the keyword arguments of
  the source call.
* `process_rfid` is written as a read phase (all the queries, producing a
  `RfidDecision`) followed by a commit phase (the single `create` write);
  their composition is the sequential function, and interleaving the two
  phases of two scans models concurrent scan submission.
-/

inductive Status where
  | IN
  | AUTO_OUT
  | INVALID
deriving DecidableEq

structure DateTime where
  date : Nat
  tod : Nat
deriving DecidableEq

/-- `a <= b` on zone-consistent instants, day-major. -/
def dtLe (a b : DateTime) : Bool :=
  decide (a.date < b.date ∨ (a.date = b.date ∧ a.tod ≤ b.tod))

structure Teacher where
  id : Nat
  full_name : String
  rfid_uid : Option String
  role : String
  is_active : Bool
deriving DecidableEq

structure Classroom where
  id : Nat
  name : String
  device_id : String
  device_token : String
  is_active : Bool
deriving DecidableEq

structure Schedule where
  id : Nat
  teacher : Nat
  classroom : Nat
  day_of_week : Nat
  start_time : Nat
  end_time : Nat
  subject : String
deriving DecidableEq

structure AttendanceSession where
  id : Nat
  teacher : Nat
  classroom : Nat
  schedule : Option Nat
  date : Nat
  time_in : DateTime
  time_out : Option DateTime
  expected_out : Option DateTime
  status : Status
  rfid_uid_used : String
deriving DecidableEq

structure EnergyLog where
  classroom : Nat
  watts : Int
  timestamp : DateTime
deriving DecidableEq

/-- The backing store: the ORM tables plus the set of one-shot timeout tasks
currently armed with Celery (`timeout_session.apply_async`, recorded as
session id paired with its `eta`). -/
structure Store where
  users : List Teacher
  classrooms : List Classroom
  schedules : List Schedule
  sessions : List AttendanceSession
  energy_logs : List EnergyLog
  armed_timers : List (Nat × DateTime)
  next_session_id : Nat
deriving DecidableEq

/-- `User.objects.get(rfid_uid=..., role='teacher', is_active=True)`;
`none` models `User.DoesNotExist`. -/
def findTeacherByRfid (store : Store) (uid : String) : Option Teacher :=
  store.users.find? (fun u => u.rfid_uid == some uid && u.role == "teacher" && u.is_active)

/-- `Classroom.objects.get(id=...)`; `none` models `Classroom.DoesNotExist`. -/
def findClassroom (store : Store) (cid : Nat) : Option Classroom :=
  store.classrooms.find? (fun c => c.id == cid)

/-- Row predicate of the duplicate check:
`filter(teacher=.., classroom=.., date=today, status='IN')`. -/
def isActiveINFor (tid cid date : Nat) (s : AttendanceSession) : Bool :=
  s.teacher == tid && s.classroom == cid && s.date == date && s.status == Status.IN

/-- The duplicate check `AttendanceSession.objects.filter(...).first()`. -/
def findExistingIN (store : Store) (tid cid date : Nat) : Option AttendanceSession :=
  store.sessions.find? (isActiveINFor tid cid date)

/-- Number of IN rows for one (teacher, classroom, date) key. -/
def sessionsINForKey (store : Store) (tid cid date : Nat) : Nat :=
  (store.sessions.filter (isActiveINFor tid cid date)).length

/-- `Schedule.objects.filter(teacher, classroom, day_of_week,
start_time__lte=current, end_time__gte=current)`. -/
def schedFilterWindow (store : Store) (tid cid dow current : Nat) : List Schedule :=
  store.schedules.filter (fun s =>
    decide (s.teacher = tid ∧ s.classroom = cid ∧ s.day_of_week = dow ∧
      s.start_time ≤ current ∧ current ≤ s.end_time))

/-- `Schedule.objects.filter(teacher, classroom, day_of_week,
start_time__gte=current, start_time__lte=threshold)`. -/
def schedFilterGrace (store : Store) (tid cid dow current threshold : Nat) : List Schedule :=
  store.schedules.filter (fun s =>
    decide (s.teacher = tid ∧ s.classroom = cid ∧ s.day_of_week = dow ∧
      current ≤ s.start_time ∧ s.start_time ≤ threshold))

/-- `.first()` under the model `ordering = ['day_of_week', 'start_time']`. -/
def schedFirst (l : List Schedule) : Option Schedule :=
  match l with
  | [] => none
  | s :: rest =>
      some (rest.foldl (fun best x =>
        if x.day_of_week < best.day_of_week ∨
            (x.day_of_week = best.day_of_week ∧ x.start_time < best.start_time)
        then x else best) s)

/-- Outcome of the read phase of `IoTConsumer.process_rfid`. -/
inductive RfidDecision where
  | errUnknownTag (rfid_uid : String)
  | errOther (msg : String)
  | duplicate (teacherName classroomName : String)
  | create (t : Teacher) (c : Classroom) (sched : Option Schedule)
      (status : Status) (expected_out : Option DateTime)
deriving DecidableEq

def RfidDecision.isCreate : RfidDecision → Bool
  | .create _ _ _ _ _ => true
  | _ => false

/-- All the database reads of `IoTConsumer.process_rfid` (teacher lookup,
classroom lookup, duplicate check, the two schedule queries) and the decision
they produce, against one snapshot of the store. -/
def rfidReadPhase (store : Store) (classroom_id : Nat) (rfid_uid : String)
    (timestamp : DateTime) : RfidDecision :=
  match findTeacherByRfid store rfid_uid with
  | none => .errUnknownTag rfid_uid
  | some teacher =>
    match findClassroom store classroom_id with
    | none => .errOther "Classroom matching query does not exist."
    | some classroom =>
      let today := timestamp.date
      let current_time := timestamp.tod
      let day_of_week := timestamp.date % 7
      match findExistingIN store teacher.id classroom.id today with
      | some _ => .duplicate teacher.full_name classroom.name
      | none =>
        let sched :=
          match schedFirst (schedFilterWindow store teacher.id classroom.id
              day_of_week current_time) with
          | some s => some s
          | none =>
            let time_threshold := (current_time + 15) % 1440
            schedFirst (schedFilterGrace store teacher.id classroom.id
              day_of_week current_time time_threshold)
        match sched with
        | some s => .create teacher classroom (some s) Status.IN
            (some ⟨today, s.end_time⟩)
        | none => .create teacher classroom none Status.INVALID none

/-- Domain event returned by `process_rfid` and broadcast to the classroom's
dashboard group. -/
inductive RfidEvent where
  | attendance_error_tag (rfid_uid : String)
  | attendance_error_msg (msg : String)
  | attendance_duplicate (teacherName classroomName : String)
  | attendance_created (session_id : Nat) (teacherName : String) (teacher_id : Nat)
      (classroomName : String) (classroom_id : Nat) (time : DateTime)
      (expected_out : Option DateTime) (status : Status)
      (schedule_subject : Option String)
deriving DecidableEq

/-- The write phase of `process_rfid`: the single
`AttendanceSession.objects.create(...)` (for a `create` decision) and the
event built from the decision.  Error and duplicate decisions write nothing.
The created row is `mkSession`, field for field the keyword arguments of the
source `objects.create(...)` call. -/
def mkSession (store : Store) (rfid_uid : String) (timestamp : DateTime)
    (t : Teacher) (c : Classroom) (sched : Option Schedule) (status : Status)
    (expected_out : Option DateTime) : AttendanceSession :=
  { id := store.next_session_id
    teacher := t.id
    classroom := c.id
    schedule := sched.map (fun s => s.id)
    date := timestamp.date
    time_in := timestamp
    time_out := none
    expected_out := expected_out
    status := status
    rfid_uid_used := rfid_uid }

/-- The write phase of `process_rfid`. -/
def rfidCommit (store : Store) (rfid_uid : String) (timestamp : DateTime)
    (d : RfidDecision) : RfidEvent × Store :=
  match d with
  | .errUnknownTag uid => (.attendance_error_tag uid, store)
  | .errOther msg => (.attendance_error_msg msg, store)
  | .duplicate tn cn => (.attendance_duplicate tn cn, store)
  | .create t c sched status expected_out =>
      let session := mkSession store rfid_uid timestamp t c sched status expected_out
      ( .attendance_created session.id t.full_name t.id c.name c.id timestamp
          expected_out status (sched.map (fun s => s.subject)),
        { store with
            sessions := store.sessions ++ [session]
            next_session_id := store.next_session_id + 1 } )

/-- `IoTConsumer.process_rfid`, run sequentially: the read phase followed by
the commit phase against the same store. -/
def process_rfid (store : Store) (classroom_id : Nat) (rfid_uid : String)
    (timestamp : DateTime) : RfidEvent × Store :=
  rfidCommit store rfid_uid timestamp (rfidReadPhase store classroom_id rfid_uid timestamp)

/-! ### Timeout scheduler (`backend/core/tasks.py`) -/

/-- Return value of the one-shot `timeout_session` Celery task, mirroring its
three result strings: session not found, session already terminal
(skipped, a benign report, not an error), or actually timed out. -/
inductive TimeoutResult where
  | not_found (session_id : Nat)
  | already (session_id : Nat) (st : Status)
  | timed_out (session_id : Nat)
deriving DecidableEq

/-- The mutation of the precise path:
`status = 'AUTO_OUT'; time_out = session.expected_out or datetime.now()`. -/
def applyTimeout (now : DateTime) (s : AttendanceSession) : AttendanceSession :=
  { s with status := Status.AUTO_OUT, time_out := some (s.expected_out.getD now) }

/-- The one-shot task `core.tasks.timeout_session(session_id)`: fetch by
primary key, skip (without writing) unless the row is still `IN`, otherwise
save the `AUTO_OUT` transition. -/
def timeout_session (store : Store) (session_id : Nat) (now : DateTime) :
    Store × TimeoutResult :=
  match store.sessions.find? (fun s => s.id == session_id) with
  | none => (store, .not_found session_id)
  | some s =>
      if s.status ≠ Status.IN then (store, .already session_id s.status)
      else
        ( { store with
              sessions := store.sessions.map (fun t =>
                if t.id = session_id then applyTimeout now t else t) },
          .timed_out session_id )

/-- Row predicate of the sweep query
`filter(status='IN', expected_out__lte=now)` (a NULL `expected_out` never
satisfies `__lte`). -/
def sweepCond (now : DateTime) (s : AttendanceSession) : Bool :=
  (s.status == Status.IN) &&
    (match s.expected_out with
     | some e => dtLe e now
     | none => false)

/-- The periodic task `core.tasks.auto_timeout_sessions`: every matching row is
saved with `status = 'AUTO_OUT'; time_out = session.expected_out`, and the
number of processed rows is returned. -/
def auto_timeout_sessions (store : Store) (now : DateTime) : Store × Nat :=
  ( { store with
        sessions := store.sessions.map (fun s =>
          if sweepCond now s then
            { s with status := Status.AUTO_OUT, time_out := s.expected_out }
          else s) },
    (store.sessions.filter (sweepCond now)).length )

/-- `core.tasks.schedule_session_timeout(session)`: skip when `expected_out` is
unset, otherwise arm `timeout_session.apply_async(args=[session.id],
eta=session.expected_out)`. -/
def schedule_session_timeout (store : Store) (s : AttendanceSession) : Store :=
  match s.expected_out with
  | none => store
  | some e => { store with armed_timers := store.armed_timers ++ [(s.id, e)] }

/-- One run of either timeout mechanism: the precise one-shot task for a given
session id, or the periodic sweep, at some instant. -/
inductive TOp where
  | precise (session_id : Nat) (now : DateTime)
  | sweep (now : DateTime)
deriving DecidableEq

def applyTOp (store : Store) (op : TOp) : Store :=
  match op with
  | .precise sid now => (timeout_session store sid now).1
  | .sweep now => (auto_timeout_sessions store now).1

def runTOps (store : Store) (ops : List TOp) : Store :=
  ops.foldl applyTOp store

def sessionAt (store : Store) (i : Nat) : Option AttendanceSession :=
  store.sessions[i]?

/-- How many of the runs in `ops` actually mutate the session row at index
`i`, executing the runs in order. -/
def mutationCount (store : Store) (ops : List TOp) (i : Nat) : Nat :=
  match ops with
  | [] => 0
  | op :: rest =>
      let store' := applyTOp store op
      (if sessionAt store' i ≠ sessionAt store i then 1 else 0) +
        mutationCount store' rest i

/-! ### Device gateway (`IoTConsumer`) -/

/-- One inbound device payload after JSON decoding: the four optional fields
`IoTConsumer.receive` reads. -/
structure DeviceMessage where
  device_id : Option String
  rfid_uid : Option String
  power : Option Int
  timestamp : Option String
deriving DecidableEq

/-- An inbound frame: either undecodable JSON or a decoded message. -/
inductive Inbound where
  | malformed
  | msg (m : DeviceMessage)
deriving DecidableEq

/-- Ambient facts of one `receive` call: the behaviour of
`datetime.fromisoformat` (raising `ValueError` is `none`) and the gateway's
current wall-clock time `timezone.now()`. -/
structure GatewayEnv where
  fromIso : String → Option DateTime
  now : DateTime

/-- Python truthiness of `timestamp_str and timestamp_str.strip()`: the string
is non-empty and stripping whitespace leaves something. -/
def nonBlank (s : String) : Bool :=
  !s.data.isEmpty && s.data.any (fun c => !c.isWhitespace)

/-- `timestamp_str.replace('Z', '+00:00')`, applied when the string ends in
`Z` (structural model of the Python string operations). -/
def zNormalize (s : String) : String :=
  if s.data.getLast? = some 'Z' then
    String.mk (s.data.flatMap (fun c => if c = 'Z' then "+00:00".data else [c]))
  else s

/-- The timestamp-parsing block of `IoTConsumer.receive`: use the device's
string when present, non-blank and parseable (normalising a trailing `Z` by
`replace('Z', '+00:00')`), otherwise fall back to server time. -/
def parse_timestamp (env : GatewayEnv) (field : Option String) : DateTime :=
  match field with
  | none => env.now
  | some s =>
      if nonBlank s then
        match env.fromIso (zNormalize s) with
        | some t => t
        | none => env.now
      else env.now

/-- The synchronous acknowledgment sent back to the device: the `ok` form
carries `timezone.now()`, the error forms carry only a message. -/
inductive Ack where
  | ok (timestamp : DateTime)
  | err (msg : String)
deriving DecidableEq

def ackTimestamp : Ack → Option DateTime
  | .ok t => some t
  | .err _ => none

/-- Payload of a `channel_layer.group_send`, keyed by its `type` field.  The
power payload carries only watts and timestamp — no classroom identifier. -/
inductive Payload where
  | attendance_event (ev : RfidEvent)
  | power_update (watts : Int) (timestamp : DateTime)
  | auto_timeout_event (session_id : Nat)
deriving DecidableEq

structure GroupMessage where
  group : String
  payload : Payload
deriving DecidableEq

def dashboardGroup (cid : Nat) : String :=
  "dashboard_classroom_" ++ toString cid

/-- `IoTConsumer.save_energy_log`: `none` models the uncaught
`Classroom.DoesNotExist` escaping to `receive`'s generic handler. -/
def save_energy_log (store : Store) (classroom_id : Nat) (watts : Int)
    (timestamp : DateTime) : Option Store :=
  match findClassroom store classroom_id with
  | none => none
  | some c =>
      some { store with energy_logs := store.energy_logs ++ [⟨c.id, watts, timestamp⟩] }

structure ReceiveResult where
  store : Store
  sent : List GroupMessage
  ack : Ack
deriving DecidableEq

/-- The `if rfid_uid:` block of `IoTConsumer.receive`: hand off to
`process_rfid` and broadcast the resulting event to the classroom's
dashboard group. -/
def rfidPart (store : Store) (classroom_id : Nat) (rfid_uid : Option String)
    (timestamp : DateTime) : Store × List GroupMessage :=
  match rfid_uid with
  | some uid =>
      if uid ≠ "" then
        let r := process_rfid store classroom_id uid timestamp
        (r.2, [⟨dashboardGroup classroom_id, .attendance_event r.1⟩])
      else (store, [])
  | none => (store, [])

/-- The `if power is not None:` block and the acknowledgment of
`IoTConsumer.receive`, applied after the RFID block (`acc` is the store and
broadcasts so far).  A `Classroom.DoesNotExist` from the power append aborts
into the generic error acknowledgment, keeping whatever was already done. -/
def powerPart (env : GatewayEnv) (classroom_id : Nat) (power : Option Int)
    (timestamp : DateTime) (acc : Store × List GroupMessage) : ReceiveResult :=
  match power with
  | some w =>
      match save_energy_log acc.1 classroom_id w timestamp with
      | none =>
          ⟨acc.1, acc.2, .err "Classroom matching query does not exist."⟩
      | some store2 =>
          ⟨store2,
            acc.2 ++ [⟨dashboardGroup classroom_id, .power_update w timestamp⟩],
            .ok env.now⟩
  | none => ⟨acc.1, acc.2, .ok env.now⟩

/-- Body of `IoTConsumer.receive` after timestamp parsing: the RFID handoff
and its broadcast, then the power append and its broadcast, then the
acknowledgment. -/
def handleFields (env : GatewayEnv) (store : Store) (classroom_id : Nat)
    (rfid_uid : Option String) (power : Option Int) (timestamp : DateTime) :
    ReceiveResult :=
  powerPart env classroom_id power timestamp
    (rfidPart store classroom_id rfid_uid timestamp)

/-- `IoTConsumer.receive`: undecodable JSON is acknowledged with
`{'status': 'error', 'message': 'Invalid JSON'}` (no timestamp), a decoded
message is processed per field and acknowledged. -/
def receive (env : GatewayEnv) (store : Store) (classroom_id : Nat)
    (inbound : Inbound) : ReceiveResult :=
  match inbound with
  | .malformed => ⟨store, [], .err "Invalid JSON"⟩
  | .msg m =>
      handleFields env store classroom_id m.rfid_uid m.power
        (parse_timestamp env m.timestamp)

/-! ### Device connect (`IoTConsumer.connect` / `verify_device`) -/

/-- Python `str.split(sep)` for a one-character separator, structurally on the
character list. -/
def charSplit (sep : Char) : List Char → List (List Char)
  | [] => [[]]
  | c :: rest =>
      let r := charSplit sep rest
      if c = sep then [] :: r
      else
        match r with
        | [] => [[c]]
        | h :: t => (c :: h) :: t

/-- Python `param.split('=', 1)`: the part before the first `=` and the rest
after it (when a `=` occurs at all). -/
def breakAtChar (sep : Char) : List Char → List Char × Option (List Char)
  | [] => ([], none)
  | c :: rest =>
      if c = sep then ([], some rest)
      else
        let r := breakAtChar sep rest
        (c :: r.1, r.2)

/-- The query-string loop of `IoTConsumer.connect`: split on `&`, keep only
parts containing `=`, split each at the first `=`; later occurrences of a key
override earlier ones (dict assignment). -/
def parse_query_params (qs : String) : List (String × String) :=
  if qs.data.isEmpty then []
  else (charSplit '&' qs.data).foldl (fun acc p =>
    if p.contains '=' then
      let kv := breakAtChar '=' p
      acc ++ [(String.mk kv.1, String.mk (kv.2.getD []))]
    else acc) []

/-- Dict lookup with override semantics: the value of the last occurrence. -/
def lookupParam (params : List (String × String)) (key : String) :
    Option (String × String) :=
  params.reverse.find? (fun kv => kv.1 == key)

/-- `params.get('token', '')`. -/
def getTokenParam (params : List (String × String)) : String :=
  match lookupParam params "token" with
  | some kv => kv.2
  | none => ""

/-- `IoTConsumer.verify_device`: classroom must exist, be active, and store
exactly the presented token. -/
def verify_device (store : Store) (classroom_id : Nat) (token : String) :
    Bool × Option String :=
  match findClassroom store classroom_id with
  | none => (false, some "Classroom does not exist")
  | some c =>
      if ¬ c.is_active then (false, some "Classroom is not active")
      else if c.device_token ≠ token then (false, some "Token mismatch")
      else (true, none)

inductive ConnectResult where
  | accepted
  | closed (code : Nat)
deriving DecidableEq

/-- `IoTConsumer.connect`: parse the token from the query string, verify it,
close with code 4003 on failure (before any message is received), accept
otherwise. -/
def iot_connect (store : Store) (classroom_id : Nat) (query_string : String) :
    ConnectResult :=
  let params := parse_query_params query_string
  let device_token := getTokenParam params
  if (verify_device store classroom_id device_token).1 then .accepted
  else .closed 4003

/-! ### Dashboard fan-out (`DashboardConsumer`) -/

/-- One dashboard connection: the optional classroom id captured from the
route (`none` for the all-classrooms endpoint). -/
structure DashboardConn where
  classroom_id : Option Nat
deriving DecidableEq

/-- `DashboardConsumer.get_active_classrooms`. -/
def get_active_classrooms (store : Store) : List Nat :=
  (store.classrooms.filter (fun c => c.is_active)).map (fun c => c.id)

/-- The groups a dashboard connection joins at connect time: its own group,
and for the all-classrooms endpoint additionally every currently-active
classroom's group (snapshot join). -/
def dashboard_groups (store : Store) (conn : DashboardConn) : List String :=
  match conn.classroom_id with
  | some cid => [dashboardGroup cid]
  | none => "dashboard_all" :: (get_active_classrooms store).map dashboardGroup

/-- A group publish reaches a connection iff the connection joined the target
group. -/
def delivers (store : Store) (conn : DashboardConn) (gm : GroupMessage) : Bool :=
  (dashboard_groups store conn).contains gm.group

/-- Outbound frame of `DashboardConsumer.power_update`: note the
`classroom_id` field is the connection's own `self.classroom_id`, not data
from the event payload. -/
structure PowerFrame where
  classroom_id : Option Nat
  watts : Int
  timestamp : DateTime
deriving DecidableEq

def power_update_frame (conn : DashboardConn) (watts : Int)
    (timestamp : DateTime) : PowerFrame :=
  { classroom_id := conn.classroom_id, watts := watts, timestamp := timestamp }

/-! ### Concrete fixtures used by witnesses and counterexamples -/

def demoTeacher : Teacher :=
  { id := 1, full_name := "Jane Cruz", rfid_uid := some "A1B2",
    role := "teacher", is_active := true }

def demoClassroom : Classroom :=
  { id := 5, name := "Room 5", device_id := "esp32-5", device_token := "",
    is_active := true }

/-- Monday (day index ≡ 0 mod 7), 08:00–09:00. -/
def demoSchedule : Schedule :=
  { id := 3, teacher := 1, classroom := 5, day_of_week := 0,
    start_time := 480, end_time := 540, subject := "Math" }

def demoStore : Store :=
  { users := [demoTeacher], classrooms := [demoClassroom],
    schedules := [demoSchedule], sessions := [], energy_logs := [],
    armed_timers := [], next_session_id := 1 }

/-- Monday (day 7), 08:10. -/
def demoTs : DateTime := ⟨7, 490⟩

/-- A second IN session store used by the duplicate-scan witness. -/
def demoDupSession : AttendanceSession :=
  { id := 0, teacher := 1, classroom := 5, schedule := some 3, date := 7,
    time_in := ⟨7, 485⟩, time_out := none, expected_out := some ⟨7, 540⟩,
    status := Status.IN, rfid_uid_used := "A1B2" }

def demoDupStore : Store :=
  { demoStore with sessions := [demoDupSession] }

/-! ### C6 — unresolvable tag -/

/-- Claim C6: a scan whose tag matches no active teacher yields the
`attendance_error` event carrying the raw tag value, and the store — in
particular the attendance-session table — is unchanged. -/
theorem c6_unknown_tag_error (store : Store) (cid : Nat) (uid : String)
    (ts : DateTime) (h : findTeacherByRfid store uid = none) :
    process_rfid store cid uid ts = (RfidEvent.attendance_error_tag uid, store) := by
  simp [process_rfid, rfidReadPhase, h, rfidCommit]

/-- Witness for C6 at a concrete store and unknown tag. -/
theorem c6_unknown_tag_error_witness :
    findTeacherByRfid demoStore "ZZ99" = none ∧
    process_rfid demoStore 5 "ZZ99" demoTs =
      (RfidEvent.attendance_error_tag "ZZ99", demoStore) :=
  ⟨by decide, c6_unknown_tag_error demoStore 5 "ZZ99" demoTs (by decide)⟩

/-! ### C5 — duplicate scan while IN -/

/-- Claim C5: a scan by a teacher who already has an IN session for the same
classroom and calendar date produces the `attendance_duplicate` event and
leaves the store unchanged: no new row, the existing session untouched. -/
theorem c5_duplicate_no_mutation (store : Store) (cid : Nat) (uid : String)
    (ts : DateTime) (t : Teacher) (c : Classroom) (ex : AttendanceSession)
    (ht : findTeacherByRfid store uid = some t)
    (hc : findClassroom store cid = some c)
    (hex : findExistingIN store t.id c.id ts.date = some ex) :
    process_rfid store cid uid ts =
      (RfidEvent.attendance_duplicate t.full_name c.name, store) := by
  simp [process_rfid, rfidReadPhase, ht, hc, hex, rfidCommit]

/-- Witness for C5: second scan on a day that already has an IN session. -/
theorem c5_duplicate_no_mutation_witness :
    findExistingIN demoDupStore 1 5 7 = some demoDupSession ∧
    process_rfid demoDupStore 5 "A1B2" demoTs =
      (RfidEvent.attendance_duplicate "Jane Cruz" "Room 5", demoDupStore) :=
  ⟨by decide,
    c5_duplicate_no_mutation demoDupStore 5 "A1B2" demoTs demoTeacher
      demoClassroom demoDupSession (by decide) (by decide) (by decide)⟩

/-! ### C1 — at-most-one IN session per (teacher, classroom, date) -/

theorem countIN_append (p : AttendanceSession → Bool)
    (l : List AttendanceSession) (s : AttendanceSession) :
    (List.filter p (l ++ [s])).length =
      (List.filter p l).length + (if p s then 1 else 0) := by
  cases hp : p s <;> simp [List.filter_append, List.filter_cons, hp]

theorem findExistingIN_none_count (store : Store) (tid cid d : Nat)
    (h : findExistingIN store tid cid d = none) :
    sessionsINForKey store tid cid d = 0 := by
  unfold findExistingIN at h
  unfold sessionsINForKey
  rw [List.length_eq_zero, List.filter_eq_nil_iff]
  intro a ha
  exact List.find?_eq_none.mp h a ha

/-- If the read phase decides to create an `IN` session for teacher `t` in
classroom `c`, then its duplicate check found no `IN` row for
(t, c, scan date) in the snapshot it read. -/
theorem rfidReadPhase_create_IN (store : Store) (cid : Nat) (uid : String)
    (ts : DateTime) (t : Teacher) (c : Classroom) (sched : Option Schedule)
    (eo : Option DateTime)
    (h : rfidReadPhase store cid uid ts = .create t c sched Status.IN eo) :
    findExistingIN store t.id c.id ts.date = none := by
  rcases hT : findTeacherByRfid store uid with _ | teacher
  · simp [rfidReadPhase, hT] at h
  · rcases hC : findClassroom store cid with _ | classroom
    · simp [rfidReadPhase, hT, hC] at h
    · rcases hE : findExistingIN store teacher.id classroom.id ts.date with _ | ex
      · simp only [rfidReadPhase, hT, hC, hE] at h
        rcases hW : schedFirst (schedFilterWindow store teacher.id classroom.id
            (ts.date % 7) ts.tod) with _ | s1
        · rcases hG : schedFirst (schedFilterGrace store teacher.id classroom.id
              (ts.date % 7) ts.tod ((ts.tod + 15) % 1440)) with _ | s2
          · rw [hW, hG] at h
            simp at h
          · rw [hW, hG] at h
            simp at h
            obtain ⟨h1, h2, -⟩ := h
            subst h1
            subst h2
            exact hE
        · rw [hW] at h
          simp at h
          obtain ⟨h1, h2, -⟩ := h
          subst h1
          subst h2
          exact hE
      · simp [rfidReadPhase, hT, hC, hE] at h

/-- Claim C1, amended: when each scan's duplicate-check-then-create runs
atomically (sequentially, the composition `process_rfid`), the invariant "at
most one IN session per (teacher, classroom, date)" is preserved.  The
check-then-create is not atomic in the code, so concurrent interleaved scans
can violate the invariant (see the counterexample). -/
theorem c1_sequential_invariant (store : Store) (cid : Nat) (uid : String)
    (ts : DateTime) (tid cid2 d : Nat)
    (hinv : ∀ a b e, sessionsINForKey store a b e ≤ 1) :
    sessionsINForKey (process_rfid store cid uid ts).2 tid cid2 d ≤ 1 := by
  rcases hdec : rfidReadPhase store cid uid ts with u | m | ⟨tn, cn⟩ | ⟨t, c, sch, st, eo⟩
  · simpa [process_rfid, hdec, rfidCommit] using hinv tid cid2 d
  · simpa [process_rfid, hdec, rfidCommit] using hinv tid cid2 d
  · simpa [process_rfid, hdec, rfidCommit] using hinv tid cid2 d
  · simp only [process_rfid, hdec, rfidCommit]
    unfold sessionsINForKey
    simp only
    rw [countIN_append]
    by_cases hp : isActiveINFor tid cid2 d (mkSession store uid ts t c sch st eo)
    · have hfields := hp
      unfold isActiveINFor mkSession at hfields
      simp only [Bool.and_eq_true, beq_iff_eq] at hfields
      obtain ⟨⟨⟨h1, h2⟩, h3⟩, h4⟩ := hfields
      subst h1
      subst h2
      subst h3
      subst h4
      have h0 : findExistingIN store t.id c.id ts.date = none :=
        rfidReadPhase_create_IN store cid uid ts t c sch eo hdec
      have hz := findExistingIN_none_count store t.id c.id ts.date h0
      unfold sessionsINForKey at hz
      rw [hp, if_pos rfl]
      omega
    · rw [if_neg hp]
      have := hinv tid cid2 d
      unfold sessionsINForKey at this
      omega

/-- Read phase of each of two concurrent scans for the same teacher,
classroom and date, both executed against the same store snapshot before
either commit. -/
def raceDecision : RfidDecision := rfidReadPhase demoStore 5 "A1B2" demoTs

/-- Store after the first scan's commit. -/
def raceStore1 : Store := (rfidCommit demoStore "A1B2" demoTs raceDecision).2

/-- Store after the second scan's commit (its read ran before the first
commit, so it also saw no duplicate). -/
def raceStore2 : Store := (rfidCommit raceStore1 "A1B2" demoTs raceDecision).2

/-- Counterexample to claim C1: the duplicate-check-then-create in
`process_rfid` is not atomic, so the interleaving read-A, read-B, commit-A,
commit-B of two scans for the same (teacher 1, classroom 5, date 7) — an
interleaving the code permits, having no conditional insert, unique
constraint or lock — leaves two sessions with status IN for that key,
violating "at most one IN session at any instant under concurrent scan
submission". -/
theorem c1_counterexample :
    RfidDecision.isCreate (rfidReadPhase demoStore 5 "A1B2" demoTs) = true ∧
    sessionsINForKey raceStore2 1 5 7 = 2 ∧
    ¬ sessionsINForKey raceStore2 1 5 7 ≤ 1 := by decide

/-- Witness for the amended C1 theorem at a concrete store satisfying the
invariant. -/
theorem c1_sequential_invariant_witness :
    sessionsINForKey (process_rfid demoStore 5 "A1B2" demoTs).2 1 5 7 ≤ 1 :=
  c1_sequential_invariant demoStore 5 "A1B2" demoTs 1 5 7
    (fun a b e => by simp [sessionsINForKey, demoStore])

/-! ### C4 — schedule matching and the 15-minute grace window -/

/-- Claim C4, amended: for a scan by an active teacher with no existing IN
session, (a) a scan inside a matching entry's window creates an IN session
whose `expected_out` is the scan date combined with that entry's end time;
(b) when no window contains the scan but a matching entry starts within the
next 15 minutes *and the scan is more than 15 minutes before midnight* (the
code computes the grace threshold as a time-of-day, which wraps at
midnight), an IN session is created; (c) when no window contains the scan
and every matching entry at or after the scan time starts more than
15 minutes later, an INVALID session with no `expected_out` is created. -/
theorem c4_schedule_match (store : Store) (cid : Nat) (uid : String)
    (ts : DateTime) (t : Teacher) (c : Classroom)
    (ht : findTeacherByRfid store uid = some t)
    (hc : findClassroom store cid = some c)
    (hnodup : findExistingIN store t.id c.id ts.date = none) :
    (∀ sch,
      schedFirst (schedFilterWindow store t.id c.id (ts.date % 7) ts.tod) = some sch →
      (process_rfid store cid uid ts).2.sessions =
        store.sessions ++
          [mkSession store uid ts t c (some sch) Status.IN
            (some ⟨ts.date, sch.end_time⟩)]) ∧
    (schedFirst (schedFilterWindow store t.id c.id (ts.date % 7) ts.tod) = none →
      ts.tod + 15 < 1440 →
      (∃ e ∈ store.schedules, e.teacher = t.id ∧ e.classroom = c.id ∧
        e.day_of_week = ts.date % 7 ∧ ts.tod ≤ e.start_time ∧
        e.start_time ≤ ts.tod + 15) →
      ∃ sess, (process_rfid store cid uid ts).2.sessions =
          store.sessions ++ [sess] ∧
        sess.status = Status.IN ∧ sess.expected_out.isSome = true) ∧
    (schedFirst (schedFilterWindow store t.id c.id (ts.date % 7) ts.tod) = none →
      (∀ e ∈ store.schedules, e.teacher = t.id → e.classroom = c.id →
        e.day_of_week = ts.date % 7 → ts.tod ≤ e.start_time →
        ts.tod + 15 < e.start_time) →
      (process_rfid store cid uid ts).2.sessions =
        store.sessions ++ [mkSession store uid ts t c none Status.INVALID none]) := by
  refine ⟨?_, ?_, ?_⟩
  · intro sch hW
    simp [process_rfid, rfidReadPhase, ht, hc, hnodup, hW, rfidCommit]
  · intro hW hwrap hex
    obtain ⟨e, he, h1, h2, h3, h4, h5⟩ := hex
    have hthr : (ts.tod + 15) % 1440 = ts.tod + 15 := Nat.mod_eq_of_lt hwrap
    have hmem : e ∈ schedFilterGrace store t.id c.id (ts.date % 7) ts.tod
        ((ts.tod + 15) % 1440) := by
      unfold schedFilterGrace
      rw [hthr]
      exact List.mem_filter.mpr ⟨he, by simp [h1, h2, h3, h4, h5]⟩
    rcases hgl : schedFilterGrace store t.id c.id (ts.date % 7) ts.tod
        ((ts.tod + 15) % 1440) with _ | ⟨s0, rest⟩
    · rw [hgl] at hmem
      simp at hmem
    · have hG : schedFirst (schedFilterGrace store t.id c.id (ts.date % 7) ts.tod
          ((ts.tod + 15) % 1440)) =
          some (rest.foldl (fun best x =>
            if x.day_of_week < best.day_of_week ∨
                (x.day_of_week = best.day_of_week ∧ x.start_time < best.start_time)
            then x else best) s0) := by
        rw [hgl]
        rfl
      refine ⟨mkSession store uid ts t c
          (some (rest.foldl (fun best x =>
            if x.day_of_week < best.day_of_week ∨
                (x.day_of_week = best.day_of_week ∧ x.start_time < best.start_time)
            then x else best) s0)) Status.IN
          (some ⟨ts.date, (rest.foldl (fun best x =>
            if x.day_of_week < best.day_of_week ∨
                (x.day_of_week = best.day_of_week ∧ x.start_time < best.start_time)
            then x else best) s0).end_time⟩), ?_, rfl, rfl⟩
      simp [process_rfid, rfidReadPhase, ht, hc, hnodup, hW, hG, rfidCommit]
  · intro hW hfar
    have hempty : schedFilterGrace store t.id c.id (ts.date % 7) ts.tod
        ((ts.tod + 15) % 1440) = [] := by
      unfold schedFilterGrace
      rw [List.filter_eq_nil_iff]
      intro e he hpred
      simp only [decide_eq_true_eq] at hpred
      obtain ⟨h1, h2, h3, h4, h5⟩ := hpred
      have := hfar e he h1 h2 h3 h4
      have hle : (ts.tod + 15) % 1440 ≤ ts.tod + 15 := Nat.mod_le _ _
      omega
    have hG : schedFirst (schedFilterGrace store t.id c.id (ts.date % 7) ts.tod
        ((ts.tod + 15) % 1440)) = none := by
      rw [hempty]
      rfl
    simp [process_rfid, rfidReadPhase, ht, hc, hnodup, hW, hG, rfidCommit]

/-- A schedule entry starting at 23:59 on the scan's weekday, 9 minutes after
the counterexample scan at 23:50. -/
def lateSchedule : Schedule :=
  { id := 4, teacher := 1, classroom := 5, day_of_week := 0,
    start_time := 1439, end_time := 1439, subject := "Evening" }

def lateStore : Store :=
  { demoStore with schedules := [lateSchedule] }

/-- 23:50 on day 7 (weekday 0). -/
def lateTs : DateTime := ⟨7, 1430⟩

/-- Counterexample to claim C4: at a 23:50 scan, a matching entry starting at
23:59 — 9 minutes later, within the claimed 15-minute grace — does not match,
because the code computes the threshold as a wrapped time-of-day
(`(23:50 + 15min).time() = 00:05`), and the session is created INVALID with
no expected-out instead of IN. -/
theorem c4_counterexample :
    schedFirst (schedFilterWindow lateStore 1 5 0 1430) = none ∧
    (lateSchedule ∈ lateStore.schedules ∧ lateSchedule.teacher = 1 ∧
      lateSchedule.classroom = 5 ∧ lateSchedule.day_of_week = 0 ∧
      1430 ≤ lateSchedule.start_time ∧ lateSchedule.start_time ≤ 1430 + 15) ∧
    (process_rfid lateStore 5 "A1B2" lateTs).2.sessions.map (fun s => s.status) =
      [Status.INVALID] ∧
    (process_rfid lateStore 5 "A1B2" lateTs).2.sessions.map (fun s => s.expected_out) =
      [none] := by decide

/-- Witness for the amended C4 theorem, case (a): the 08:10 scan inside the
Monday 08:00–09:00 window creates an IN session expiring at 09:00. -/
theorem c4_schedule_match_witness :
    (process_rfid demoStore 5 "A1B2" demoTs).2.sessions =
      demoStore.sessions ++
        [mkSession demoStore "A1B2" demoTs demoTeacher demoClassroom
          (some demoSchedule) Status.IN (some ⟨7, 540⟩)] :=
  (c4_schedule_match demoStore 5 "A1B2" demoTs demoTeacher demoClassroom
      (by decide) (by decide) (by decide)).1 demoSchedule (by decide)

/-! ### C3 — arming the precise timeout at session creation -/

/-- Claim C3 evaluated on the code: the 08:10 scan creates an IN session with
`expected_out` 09:00, yet the armed-timer set is unchanged — `process_rfid`
returns without ever calling `schedule_session_timeout` (which, as shown by
the last conjunct, would have armed the one-shot task with
`eta = expected_out` had it been called).  No caller of
`schedule_session_timeout` or `timeout_session.apply_async` exists anywhere
in the repository. -/
theorem c3_no_timer_armed :
    (process_rfid demoStore 5 "A1B2" demoTs).2.sessions.map (fun s => s.status) =
      [Status.IN] ∧
    (process_rfid demoStore 5 "A1B2" demoTs).2.sessions.map (fun s => s.expected_out) =
      [some ⟨7, 540⟩] ∧
    demoStore.armed_timers = [] ∧
    (process_rfid demoStore 5 "A1B2" demoTs).2.armed_timers = [] ∧
    (schedule_session_timeout (process_rfid demoStore 5 "A1B2" demoTs).2
        (mkSession demoStore "A1B2" demoTs demoTeacher demoClassroom
          (some demoSchedule) Status.IN (some ⟨7, 540⟩))).armed_timers =
      [(1, ⟨7, 540⟩)] := by decide

/-! ### C2 — the two timeout mechanisms transition exactly once -/

/-- A run of a timeout mechanism aimed at the session with id `sid` and
expected-out `e`: the one-shot task armed for it (which, like the source,
checks only the status guard, not the clock), or a sweep at an instant at or
after `e`. -/
def opHits (sid : Nat) (e : DateTime) : TOp → Bool
  | .precise sid2 _ => sid2 == sid
  | .sweep now => dtLe e now

/-- A run that, if it is a one-shot task, is the one armed for `sid`. -/
def preciseTargets (sid : Nat) : TOp → Bool
  | .precise sid2 _ => sid2 == sid
  | .sweep _ => true

theorem applyTOp_ids (store : Store) (op : TOp) :
    (applyTOp store op).sessions.map (fun x => x.id) =
      store.sessions.map (fun x => x.id) := by
  cases op with
  | precise sid now =>
      show ((timeout_session store sid now).1.sessions.map (fun x => x.id)) =
        store.sessions.map (fun x => x.id)
      unfold timeout_session
      rcases hf : store.sessions.find? (fun s => s.id == sid) with _ | s
      · simp only [hf]
      · simp only [hf]
        by_cases hst : s.status ≠ Status.IN
        · rw [if_pos hst]
        · rw [if_neg hst]
          simp only [List.map_map]
          apply List.map_congr_left
          intro t _
          by_cases h : t.id = sid <;> simp [applyTimeout, h]
  | sweep now =>
      show ((auto_timeout_sessions store now).1.sessions.map (fun x => x.id)) =
        store.sessions.map (fun x => x.id)
      unfold auto_timeout_sessions
      simp only [List.map_map]
      apply List.map_congr_left
      intro t _
      by_cases h : sweepCond now t <;> simp [h]

theorem runTOps_ids (ops : List TOp) (store : Store) :
    (runTOps store ops).sessions.map (fun x => x.id) =
      store.sessions.map (fun x => x.id) := by
  induction ops generalizing store with
  | nil => rfl
  | cons op rest ih =>
      show (runTOps (applyTOp store op) rest).sessions.map (fun x => x.id) = _
      rw [ih (applyTOp store op), applyTOp_ids]

/-- Under unique ids, the primary-key fetch of the row at index `i` returns
exactly that row. -/
theorem find?_id_of_nodup (l : List AttendanceSession) (i : Nat)
    (s : AttendanceSession) (hn : (l.map (fun x => x.id)).Nodup)
    (hi : l[i]? = some s) :
    l.find? (fun t => t.id == s.id) = some s := by
  induction l generalizing i with
  | nil => simp at hi
  | cons a tl ih =>
      cases i with
      | zero =>
          simp only [List.getElem?_cons_zero, Option.some.injEq] at hi
          subst hi
          exact List.find?_cons_of_pos tl (by simp)
      | succ n =>
          simp only [List.getElem?_cons_succ] at hi
          have hmem : s ∈ tl := List.getElem?_mem hi
          simp only [List.map_cons, List.nodup_cons] at hn
          have hne : a.id ≠ s.id := fun h =>
            hn.1 (h ▸ List.mem_map_of_mem (fun x => x.id) hmem)
          rw [List.find?_cons_of_neg tl (by simp [hne])]
          exact ih n hn.2 hi

/-- The one-shot task on a still-IN row: the row transitions to AUTO_OUT with
`time_out = expected_out or now`, and the task reports the transition. -/
theorem timeout_session_hit (store : Store) (i : Nat) (s : AttendanceSession)
    (now : DateTime)
    (hn : (store.sessions.map (fun x => x.id)).Nodup)
    (hi : store.sessions[i]? = some s) (hin : s.status = Status.IN) :
    (timeout_session store s.id now).1.sessions[i]? = some (applyTimeout now s) ∧
    (timeout_session store s.id now).2 = .timed_out s.id := by
  have hf := find?_id_of_nodup store.sessions i s hn hi
  unfold timeout_session
  simp only [hf]
  rw [if_neg (by simp [hin])]
  constructor
  · simp [List.getElem?_map, hi]
  · rfl

/-- The one-shot task on a row that is no longer IN: no store mutation at
all, and a benign "already" report. -/
theorem timeout_session_skip (store : Store) (i : Nat) (s : AttendanceSession)
    (now : DateTime)
    (hn : (store.sessions.map (fun x => x.id)).Nodup)
    (hi : store.sessions[i]? = some s) (hnin : s.status ≠ Status.IN) :
    timeout_session store s.id now = (store, .already s.id s.status) := by
  have hf := find?_id_of_nodup store.sessions i s hn hi
  unfold timeout_session
  simp only [hf]
  rw [if_pos hnin]

/-- The sweep transitions a still-IN row whose expected-out has passed. -/
theorem sweep_hit (store : Store) (i : Nat) (s : AttendanceSession)
    (now e : DateTime) (hi : store.sessions[i]? = some s)
    (hin : s.status = Status.IN) (he : s.expected_out = some e)
    (hle : dtLe e now = true) :
    (auto_timeout_sessions store now).1.sessions[i]? =
      some { s with status := Status.AUTO_OUT, time_out := s.expected_out } := by
  have hcond : sweepCond now s = true := by
    unfold sweepCond
    rw [he]
    simp [hin, hle]
  unfold auto_timeout_sessions
  simp [List.getElem?_map, hi, hcond]

/-- The sweep leaves a row that is not IN untouched. -/
theorem sweep_skip_row (store : Store) (i : Nat) (s : AttendanceSession)
    (now : DateTime) (hi : store.sessions[i]? = some s)
    (hnin : s.status ≠ Status.IN) :
    (auto_timeout_sessions store now).1.sessions[i]? = some s := by
  have hcond : sweepCond now s = false := by
    unfold sweepCond
    have hb : (s.status == Status.IN) = false := by
      simpa using hnin
    simp [hb]
  unfold auto_timeout_sessions
  simp [List.getElem?_map, hi, hcond]

/-- Once the row at index `i` is terminal, any further runs of either
mechanism aimed at it leave it unchanged and mutate it zero times. -/
theorem runTOps_frozen (ops : List TOp) (store : Store) (i : Nat)
    (s2 : AttendanceSession)
    (hn : (store.sessions.map (fun x => x.id)).Nodup)
    (hi : store.sessions[i]? = some s2)
    (hnin : s2.status ≠ Status.IN)
    (hops : ∀ op ∈ ops, preciseTargets s2.id op = true) :
    (runTOps store ops).sessions[i]? = some s2 ∧
      mutationCount store ops i = 0 := by
  induction ops generalizing store with
  | nil => exact ⟨hi, rfl⟩
  | cons op rest ih =>
      have hop := hops op (List.mem_cons_self op rest)
      have hrow : (applyTOp store op).sessions[i]? = some s2 := by
        cases op with
        | precise sid now =>
            have hsid : sid = s2.id := by simpa [preciseTargets] using hop
            subst hsid
            show (timeout_session store s2.id now).1.sessions[i]? = some s2
            rw [timeout_session_skip store i s2 now hn hi hnin]
            exact hi
        | sweep now =>
            exact sweep_skip_row store i s2 now hi hnin
      have hn2 : ((applyTOp store op).sessions.map (fun x => x.id)).Nodup := by
        rw [applyTOp_ids]
        exact hn
      have hrest := ih (applyTOp store op) hn2 hrow
        (fun o ho => hops o (List.mem_cons_of_mem op ho))
      refine ⟨hrest.1, ?_⟩
      show (if sessionAt (applyTOp store op) i ≠ sessionAt store i then 1 else 0) +
        mutationCount (applyTOp store op) rest i = 0
      have hnochange : sessionAt (applyTOp store op) i = sessionAt store i := by
        unfold sessionAt
        rw [hrow, hi]
      rw [if_neg (by simp [hnochange]), hrest.2]

/-- The terminal row produced by either timeout mechanism from an IN row `s`
with `expected_out = some e`. -/
def timedOutRow (s : AttendanceSession) (e : DateTime) : AttendanceSession :=
  { s with status := Status.AUTO_OUT, time_out := some e }

/-- Claim C2: for a session that is IN with a passed expected-out instant
`e`, any non-empty sequence of runs of the two timeout mechanisms aimed at it
(the one-shot task, the sweep at instants ≥ e, or both, in any order) leaves
it AUTO_OUT with `time_out = e`, and exactly one of the runs mutates it;
afterwards a further one-shot attempt performs no mutation and reports the
benign "already" outcome (not an error), and a further sweep leaves the row
unchanged. -/
theorem c2_timeout_exactly_once (store : Store) (i : Nat)
    (s : AttendanceSession) (e : DateTime) (ops : List TOp) (later : DateTime)
    (hn : (store.sessions.map (fun x => x.id)).Nodup)
    (hi : store.sessions[i]? = some s)
    (hin : s.status = Status.IN)
    (he : s.expected_out = some e)
    (hne : ops ≠ [])
    (hops : ∀ op ∈ ops, opHits s.id e op = true) :
    (runTOps store ops).sessions[i]? = some (timedOutRow s e) ∧
    mutationCount store ops i = 1 ∧
    timeout_session (runTOps store ops) s.id later =
      (runTOps store ops, .already s.id Status.AUTO_OUT) ∧
    (auto_timeout_sessions (runTOps store ops) later).1.sessions[i]? =
      some (timedOutRow s e) := by
  rcases ops with _ | ⟨op, rest⟩
  · exact absurd rfl hne
  have hop := hops op (List.mem_cons_self op rest)
  have hid : (timedOutRow s e).id = s.id := rfl
  have hstat : (timedOutRow s e).status = Status.AUTO_OUT := rfl
  have hstep : (applyTOp store op).sessions[i]? = some (timedOutRow s e) := by
    cases op with
    | precise sid now =>
        have hsid : sid = s.id := by simpa [opHits] using hop
        subst hsid
        show (timeout_session store s.id now).1.sessions[i]? = _
        rw [(timeout_session_hit store i s now hn hi hin).1]
        unfold applyTimeout timedOutRow
        rw [he]
        rfl
    | sweep now =>
        have hle : dtLe e now = true := by simpa [opHits] using hop
        show (auto_timeout_sessions store now).1.sessions[i]? = _
        rw [sweep_hit store i s now e hi hin he hle]
        unfold timedOutRow
        rw [he]
  have hchanged : sessionAt (applyTOp store op) i ≠ sessionAt store i := by
    unfold sessionAt
    rw [hstep, hi]
    intro hcontra
    rw [Option.some.injEq] at hcontra
    have hst := congrArg AttendanceSession.status hcontra
    rw [hstat, hin] at hst
    exact absurd hst (by simp)
  have hn2 : ((applyTOp store op).sessions.map (fun x => x.id)).Nodup := by
    rw [applyTOp_ids]
    exact hn
  have hnin2 : (timedOutRow s e).status ≠ Status.IN := by
    rw [hstat]
    simp
  have hops2 : ∀ o ∈ rest, preciseTargets (timedOutRow s e).id o = true := by
    intro o ho
    have hh := hops o (List.mem_cons_of_mem op ho)
    rw [hid]
    cases o with
    | precise sid2 now2 => simpa [opHits, preciseTargets] using hh
    | sweep now2 => simp [preciseTargets]
  have hfrozen := runTOps_frozen rest (applyTOp store op) i (timedOutRow s e)
    hn2 hstep hnin2 hops2
  have hrun : runTOps store (op :: rest) = runTOps (applyTOp store op) rest := rfl
  have hrow : (runTOps store (op :: rest)).sessions[i]? = some (timedOutRow s e) := by
    rw [hrun]
    exact hfrozen.1
  have hnfinal : ((runTOps store (op :: rest)).sessions.map (fun x => x.id)).Nodup := by
    rw [runTOps_ids]
    exact hn
  refine ⟨hrow, ?_, ?_, ?_⟩
  · show (if sessionAt (applyTOp store op) i ≠ sessionAt store i then 1 else 0) +
      mutationCount (applyTOp store op) rest i = 1
    rw [if_pos hchanged, hfrozen.2]
  · have hskip := timeout_session_skip (runTOps store (op :: rest)) i
      (timedOutRow s e) later hnfinal hrow hnin2
    rw [hid, hstat] at hskip
    exact hskip
  · exact sweep_skip_row (runTOps store (op :: rest)) i (timedOutRow s e)
      later hrow hnin2

/-- Witness for C2: the armed one-shot task fires at 09:01 and the sweep runs
at 09:05 for the 08:05 session expiring at 09:00; the first run transitions
it, the second is a no-op. -/
theorem c2_timeout_exactly_once_witness :
    (runTOps demoDupStore [TOp.precise 0 ⟨7, 541⟩, TOp.sweep ⟨7, 545⟩]).sessions[0]? =
      some (timedOutRow demoDupSession ⟨7, 540⟩) ∧
    mutationCount demoDupStore [TOp.precise 0 ⟨7, 541⟩, TOp.sweep ⟨7, 545⟩] 0 = 1 ∧
    timeout_session (runTOps demoDupStore [TOp.precise 0 ⟨7, 541⟩, TOp.sweep ⟨7, 545⟩])
        0 ⟨7, 550⟩ =
      (runTOps demoDupStore [TOp.precise 0 ⟨7, 541⟩, TOp.sweep ⟨7, 545⟩],
        .already 0 Status.AUTO_OUT) ∧
    (auto_timeout_sessions
        (runTOps demoDupStore [TOp.precise 0 ⟨7, 541⟩, TOp.sweep ⟨7, 545⟩])
        ⟨7, 550⟩).1.sessions[0]? =
      some (timedOutRow demoDupSession ⟨7, 540⟩) :=
  c2_timeout_exactly_once demoDupStore 0 demoDupSession ⟨7, 540⟩
    [TOp.precise 0 ⟨7, 541⟩, TOp.sweep ⟨7, 545⟩] ⟨7, 550⟩
    (by decide) (by decide) (by decide) (by decide) (by decide) (by decide)

/-! ### C7 / C8 — gateway acknowledgment and timestamp fallback -/

/-- A concrete gateway environment in which no timestamp string parses. -/
def c7Env : GatewayEnv := ⟨fun _ => none, ⟨7, 500⟩⟩

/-- Counterexample to claim C7: the acknowledgment for a malformed message is
sent, but carries no timestamp at all — only the `ok` acknowledgment carries
the gateway's current time. -/
theorem c7_counterexample :
    (receive c7Env demoStore 5 Inbound.malformed).ack = Ack.err "Invalid JSON" ∧
    ackTimestamp (receive c7Env demoStore 5 Inbound.malformed).ack = none :=
  ⟨rfl, rfl⟩

/-- Claim C7, amended: every inbound frame is answered with exactly one
synchronous acknowledgment; when processing succeeds it is the `ok` form
carrying the gateway's current time, otherwise it is an error form carrying a
message (`Invalid JSON` for an undecodable body, the storage error for a
failed power append) and no timestamp. -/
theorem powerPart_ack (env : GatewayEnv) (cid : Nat) (power : Option Int)
    (timestamp : DateTime) (acc : Store × List GroupMessage) :
    (powerPart env cid power timestamp acc).ack = Ack.ok env.now ∨
    (powerPart env cid power timestamp acc).ack =
      Ack.err "Classroom matching query does not exist." := by
  rcases power with _ | w
  · left
    rfl
  · have hred : powerPart env cid (some w) timestamp acc =
        match save_energy_log acc.1 cid w timestamp with
        | none => ⟨acc.1, acc.2, .err "Classroom matching query does not exist."⟩
        | some store2 =>
            ⟨store2, acc.2 ++ [⟨dashboardGroup cid, .power_update w timestamp⟩],
              .ok env.now⟩ := rfl
    rcases hs : save_energy_log acc.1 cid w timestamp with _ | store2
    · right
      rw [hred, hs]
    · left
      rw [hred, hs]

theorem c7_always_ack (env : GatewayEnv) (store : Store) (cid : Nat)
    (inbound : Inbound) :
    (receive env store cid inbound).ack = Ack.ok env.now ∨
    (receive env store cid inbound).ack = Ack.err "Invalid JSON" ∨
    (receive env store cid inbound).ack =
      Ack.err "Classroom matching query does not exist." := by
  cases inbound with
  | malformed =>
      right
      left
      rfl
  | msg m =>
      rcases powerPart_ack env cid m.power (parse_timestamp env m.timestamp)
        (rfidPart store cid m.rfid_uid (parse_timestamp env m.timestamp)) with h | h
      · left
        exact h
      · right
        right
        exact h

/-- Claim C8: when the device timestamp is absent, blank, or fails parsing,
only the timestamp falls back — it becomes the gateway's current time, and
the whole message is processed exactly as if the timestamp had been absent
(RFID handoff, power append and acknowledgment included). -/
theorem c8_timestamp_fallback (env : GatewayEnv) (store : Store) (cid : Nat)
    (m : DeviceMessage)
    (h : m.timestamp = none ∨
      (∃ s1, m.timestamp = some s1 ∧ nonBlank s1 = false) ∨
      (∃ s1, m.timestamp = some s1 ∧ nonBlank s1 = true ∧
        env.fromIso (zNormalize s1) = none)) :
    parse_timestamp env m.timestamp = env.now ∧
    receive env store cid (.msg m) =
      receive env store cid (.msg { m with timestamp := none }) := by
  have hts : parse_timestamp env m.timestamp = env.now := by
    rcases h with h | ⟨s1, hs, hnb⟩ | ⟨s1, hs, hnb, hfail⟩
    · rw [h]
      rfl
    · rw [hs]
      simp [parse_timestamp, hnb]
    · rw [hs]
      simp [parse_timestamp, hnb, hfail]
  refine ⟨hts, ?_⟩
  show handleFields env store cid m.rfid_uid m.power (parse_timestamp env m.timestamp) =
    handleFields env store cid m.rfid_uid m.power (parse_timestamp env none)
  rw [hts]
  rfl

/-- A message whose timestamp string does not parse in `c7Env`. -/
def c8Msg : DeviceMessage :=
  { device_id := some "esp-1", rfid_uid := some "A1B2", power := some 42,
    timestamp := some "not-a-date" }

/-- Witness for C8 at a concrete unparseable timestamp. -/
theorem c8_timestamp_fallback_witness :
    parse_timestamp c7Env c8Msg.timestamp = c7Env.now ∧
    receive c7Env demoStore 5 (.msg c8Msg) =
      receive c7Env demoStore 5 (.msg { c8Msg with timestamp := none }) :=
  c8_timestamp_fallback c7Env demoStore 5 c8Msg
    (Or.inr (Or.inr ⟨"not-a-date", rfl, by decide, rfl⟩))

/-! ### C9 — classroom id on dashboard power frames -/

/-- A dashboard connection on the all-classrooms endpoint. -/
def c9Conn : DashboardConn := ⟨none⟩

/-- Claim C9 evaluated on the code: a device power reading from classroom 5
is broadcast with a payload carrying only watts and timestamp; an
all-classrooms dashboard connection is subscribed to classroom 5's group and
receives it, but the frame it emits carries `classroom_id = none` — its own
route parameter, not the reading's classroom — contradicting the documented
outbound schema `classroom_id: id`. -/
theorem c9_power_frame_wrong_classroom :
    (receive c7Env demoStore 5
        (.msg { device_id := some "esp-1", rfid_uid := none, power := some 42,
                timestamp := none })).sent =
      [⟨dashboardGroup 5, Payload.power_update 42 c7Env.now⟩] ∧
    delivers demoStore c9Conn ⟨dashboardGroup 5, Payload.power_update 42 c7Env.now⟩ =
      true ∧
    power_update_frame c9Conn 42 c7Env.now =
      { classroom_id := none, watts := 42, timestamp := c7Env.now } ∧
    (power_update_frame c9Conn 42 c7Env.now).classroom_id ≠ some 5 := by
  refine ⟨rfl, by decide, rfl, by decide⟩

/-! ### C10 — device connect with no token parameter -/

/-- Claim C10: when the query string carries no `token` parameter the token
defaults to the empty string, so the connection is accepted exactly when the
classroom exists, is active, and stores the empty token; otherwise it is
closed with code 4003 (before any message is processed — `connect` returns
without accepting). -/
theorem c10_no_token_param (store : Store) (cid : Nat) (qs : String)
    (h : lookupParam (parse_query_params qs) "token" = none) :
    (iot_connect store cid qs = ConnectResult.accepted ↔
      ∃ c, findClassroom store cid = some c ∧ c.is_active = true ∧
        c.device_token = "") ∧
    (iot_connect store cid qs = ConnectResult.accepted ∨
      iot_connect store cid qs = ConnectResult.closed 4003) := by
  have htok : getTokenParam (parse_query_params qs) = "" := by
    unfold getTokenParam
    rw [h]
  simp only [iot_connect]
  rw [htok]
  rcases hfc : findClassroom store cid with _ | c
  · have hv : (verify_device store cid "").1 = false := by
      simp [verify_device, hfc]
    rw [if_neg (by simp [hv])]
    constructor
    · constructor
      · intro hcontra
        exact absurd hcontra (by simp)
      · rintro ⟨c, hc, -, -⟩
        simp at hc
    · right
      rfl
  · by_cases hact : c.is_active = true
    · by_cases htok0 : c.device_token = ""
      · have hv : (verify_device store cid "").1 = true := by
          simp [verify_device, hfc, hact, htok0]
        rw [if_pos hv]
        exact ⟨⟨fun _ => ⟨c, rfl, hact, htok0⟩, fun _ => rfl⟩, Or.inl rfl⟩
      · have hv : (verify_device store cid "").1 = false := by
          simp [verify_device, hfc, hact, htok0]
        rw [if_neg (by simp [hv])]
        constructor
        · constructor
          · intro hcontra
            exact absurd hcontra (by simp)
          · rintro ⟨c2, hc2, -, htok2⟩
            injection hc2 with hcc
            subst hcc
            exact absurd htok2 htok0
        · right
          rfl
    · have hv : (verify_device store cid "").1 = false := by
        simp [verify_device, hfc, hact]
      rw [if_neg (by simp [hv])]
      constructor
      · constructor
        · intro hcontra
          exact absurd hcontra (by simp)
        · rintro ⟨c2, hc2, hact2, -⟩
          injection hc2 with hcc
          subst hcc
          exact absurd hact2 hact
      · right
        rfl

/-- Witness for C10: a query string with no token parameter against an
active classroom whose stored token is the empty string — accepted. -/
theorem c10_no_token_param_witness :
    iot_connect demoStore 5 "device=abc" = ConnectResult.accepted :=
  (c10_no_token_param demoStore 5 "device=abc" (by decide)).1.mpr
    ⟨demoClassroom, by decide, by decide, by decide⟩
